import Mathlib

/-!
Shallow embedding of tsickle's `src/googmodule.ts`: the CommonJS-to-goog.module
statement-level transformer (`commonJsToGoogmoduleTransformer`) and its helper
matchers/rewriters. Statements and expressions are modelled by a single `Node`
inductive, mirroring the untyped `ts.Node` union the source dispatches on with
`ts.is...` kind predicates. Source positions and comment attachment are out of
scope; `createNotEmittedStatementWithComments sf original` is modelled as a
`notEmittedStmt` node carrying the original statement.
-/

namespace Tickle

/-- Binary operator tokens distinguished by the transformer
(`ts.SyntaxKind.EqualsToken`, `CommaToken`, `BarBarToken`); every other
operator is opaque. -/
inductive BinOp : Type where
  | equalsToken : BinOp
  | commaToken : BinOp
  | barBarToken : BinOp
  | otherOp : Nat → BinOp
deriving DecidableEq, Repr

/-- Property names of object-literal members (`ts.PropertyName`): an
identifier, a string literal, or anything else (computed names etc.). -/
inductive PropName : Type where
  | identName : String → PropName
  | strName : String → PropName
  | otherName : Nat → PropName
deriving DecidableEq, Repr

/-- Untyped syntax nodes, mirroring the parts of `ts.Node` that
`googmodule.ts` inspects or constructs. Expression forms and statement
forms live in one type, as in the TypeScript API; kind predicates below
play the role of `ts.isCallExpression` etc.

`ident` carries the identifier text (the source reads it as `escapedText`
or `text`, which agree for the plain identifiers matched here).
`notEmittedStmt` is a `ts.NotEmittedStatement`; the transformer both
receives them (leading comments are converted to them upstream) and
creates them via `createNotEmittedStatementWithComments`, in which case the
original statement is kept for comment preservation. -/
inductive Node : Type where
  | ident : String → Node
  | strLit : String → Node
  | numLit : String → Node
  | propAccess : Node → String → Node
  | elemAccess : Node → Node → Node
  | call : Node → List Node → Node
  | binary : Node → BinOp → Node → Node
  | objectLit : List Node → Node
  | propAssign : PropName → Node → Node
  | funcExpr : List Node → Node
  | voidExpr : Node → Node
  | commaListExpr : List Node → Node
  | trueLit : Node
  | otherExpr : Nat → Node
  | exprStmt : Node → Node
  | varStmt : Bool → List Node → Node
  | varDecl : Node → Option Node → Node
  | bindingPattern : Nat → Node
  | returnStmt : Option Node → Node
  | notEmittedStmt : Option Node → Node
  | otherStmt : Nat → Node
deriving Repr

/-- ts.isIdentifier / kind check against SyntaxKind.Identifier. -/
def isIdentifier : Node → Bool
  | .ident _ => true
  | _ => false

/-- ts.isStringLiteral / kind check against SyntaxKind.StringLiteral. -/
def isStringLiteral : Node → Bool
  | .strLit _ => true
  | _ => false

/-- ts.isCallExpression. -/
def isCallExpression : Node → Bool
  | .call _ _ => true
  | _ => false

/-- ts.isBinaryExpression. -/
def isBinaryExpression : Node → Bool
  | .binary _ _ _ => true
  | _ => false

/-- ts.isPropertyAccessExpression. -/
def isPropertyAccessExpression : Node → Bool
  | .propAccess _ _ => true
  | _ => false

/--
`isPropertyAccess(node, parent, child)` from googmodule.ts: true if `node`
is a property access of `child` on the identifier `parent`.
-/
def isPropertyAccess (node : Node) (parent child : String) : Bool :=
  match node with
  | .propAccess (.ident p) c => p == parent && c == child
  | _ => false

/-- `isUseStrict(node)`: true if node is a `"use strict";` statement. -/
def isUseStrict (node : Node) : Bool :=
  match node with
  | .exprStmt (.strLit text) => text == "use strict"
  | _ => false

/--
`isEsModuleProperty(stmt)`: matches the exact snippet TypeScript inserts to
mark ES modules in CommonJS, `Object.defineProperty(exports, "__esModule",
{ value: true });`. The argument is the expression of the statement.
-/
def isEsModuleProperty (expression : Node) : Bool :=
  match expression with
  | .call callee args =>
    isPropertyAccess callee "Object" "defineProperty" &&
    match args with
    | [exp, esM, val] =>
      (match exp with | .ident t => t == "exports" | _ => false) &&
      (match esM with | .strLit t => t == "__esModule" | _ => false) &&
      (match val with
       | .objectLit [.propAssign (.identName n) i] =>
         n == "value" && (match i with | .trueLit => true | _ => false)
       | _ => false)
    | _ => false
  | _ => false

/--
`checkExportsVoid0Assignment(expr)`: matches the chained defaulted-exports
assignment TypeScript emits at the top of a file,
`exports.a = exports.b = ... = void 0;`.
-/
def checkExportsVoid0Assignment : Node → Bool
  | .binary l .equalsToken r =>
    (match l with
     | .propAccess (.ident e) _ => e == "exports"
     | _ => false) &&
    (match r with
     | .binary l2 op r2 => checkExportsVoid0Assignment (.binary l2 op r2)
     | .voidExpr (.numLit t) => t == "0"
     | _ => false)
  | _ => false

/--
`extractRequire(call)`: returns the string argument if `call` is of the
form `require('foo')`, otherwise null.
-/
def extractRequire (call : Node) : Option String :=
  match call with
  | .call (.ident callee) args =>
    if callee == "require" then
      match args with
      | [.strLit text] => some text
      | _ => none
    else none
  | _ => none

/-- `createGoogCall(methodName, literal)`: the call expression
`goog.methodName(literal)`. The string-literal argument is represented by
its text (`createSingleQuoteStringLiteral` only affects quoting on print). -/
def createGoogCall (methodName : String) (literal : String) : Node :=
  .call (.propAccess (.ident "goog") methodName) [.strLit literal]

/--
`extractGoogNamespaceImport(tsImport)`: the namespace part of a
`goog:` import URL (match against `/^goog:/`), or null if not one.
-/
def extractGoogNamespaceImport (tsImport : String) : Option String :=
  if "goog:".data.isPrefixOf tsImport.data then
    some (String.mk (tsImport.data.drop "goog:".data.length))
  else none

/-- A source file: file name, top-level statement list, and the internal
`externalModuleIndicator` property that marks a file as syntactically a
module rather than a script. -/
structure SourceFile : Type where
  fileName : String
  statements : List Node
  externalModuleIndicator : Bool

/-- `isModule(sourceFile)` from googmodule.ts:
`Boolean(sourceFile.externalModuleIndicator)`. -/
def isModule (sourceFile : SourceFile) : Bool :=
  sourceFile.externalModuleIndicator

/-- Modelled from the spec: `ModulesManifest` (src/modules_manifest.ts is
not among the provided sources). The spec describes it as the append-only
cross-module reference ledger: `addModule` records (file, dotted
registration name) once per module, `addReferencedModule` appends one
(file, referenced namespace) entry per processed require-like call. -/
structure ModulesManifest : Type where
  modules : List (String × String)
  referencedModules : List (String × String)

/-- Records the namespace a module file provides. -/
def ModulesManifest.addModule (m : ModulesManifest) (fileName moduleName : String) :
    ModulesManifest :=
  { m with modules := m.modules ++ [(fileName, moduleName)] }

/-- Appends one referenced-namespace entry to the ledger. -/
def ModulesManifest.addReferencedModule (m : ModulesManifest)
    (fileName resolvedModule : String) : ModulesManifest :=
  { m with referencedModules := m.referencedModules ++ [(fileName, resolvedModule)] }

/-- `GoogModuleProcessorHost` together with the external resolution oracle
it carries. `pathToModuleName`, `fileNameToModuleId`, `isJsTranspilation`,
`es5Mode` and `convertIndexImportShorthand` are the interface fields of the
source; the optional booleans default to false when absent, so they are
plain `Bool` here. `resolveToFileName` models the external
`ts.resolveModuleName` oracle (`some resolvedFileName`, or `none` when
resolution fails), and `resolvedIsUnderNodeModules` models the
`path.relative(options.rootDir || '', resolvedModule).indexOf('node_modules')
!== -1` test (src/path.ts is not among the provided sources; modelled from
the spec: resolution landing inside the third-party dependency directory is
passed through verbatim). -/
structure GoogModuleProcessorHost : Type where
  pathToModuleName : String → String → String
  fileNameToModuleId : String → String
  isJsTranspilation : Bool
  es5Mode : Bool
  convertIndexImportShorthand : Bool
  resolveToFileName : String → String → Option String
  resolvedIsUnderNodeModules : String → Bool

/--
`resolveModuleName({options, moduleResolutionHost}, pathOfImportingFile,
imported)`: resolve an import specifier to a full file name via the
resolution oracle; return the specifier unchanged when resolution fails or
lands in node_modules.
-/
def resolveModuleName (host : GoogModuleProcessorHost)
    (pathOfImportingFile imported : String) : String :=
  match host.resolveToFileName imported pathOfImportingFile with
  | none => imported
  | some resolvedModule =>
    if host.resolvedIsUnderNodeModules resolvedModule then imported
    else resolvedModule

/--
`importPathToGoogNamespace(host, file, tsImport)`: converts an import
specifier into a goog.module-compatible namespace. A `goog:` namespace
specifier is stripped to the bare namespace; a path specifier is (optionally)
resolved and then mapped through `host.pathToModuleName`. The source wraps
the result in a single-quoted string literal; only its text is used, so the
text is returned.
-/
def importPathToGoogNamespace (host : GoogModuleProcessorHost) (file : SourceFile)
    (tsImport : String) : String :=
  match extractGoogNamespaceImport tsImport with
  | some nsImport => nsImport
  | none =>
    let resolved :=
      if host.convertIndexImportShorthand then
        resolveModuleName host file.fileName tsImport
      else tsImport
    host.pathToModuleName file.fileName resolved

/--
`rewriteModuleExportsAssignment(expr)`: replaces `module.exports = X` with
`exports = X`; null if the statement's expression is not such an
assignment. The argument is the expression of the statement.
-/
def rewriteModuleExportsAssignment (expression : Node) : Option Node :=
  match expression with
  | .binary l .equalsToken r =>
    if isPropertyAccess l "module" "exports" then
      some (.exprStmt (.binary (.ident "exports") .equalsToken r))
    else none
  | _ => none

/-- Local helper `isBinaryCommaExpression` of `rewriteCommaExpressions`. -/
def isBinaryCommaExpression : Node → Bool
  | .binary _ .commaToken _ => true
  | _ => false

/-- Local helper `isCommaList` of `rewriteCommaExpressions`. -/
def isCommaList : Node → Bool
  | .commaListExpr _ => true
  | _ => false

mutual
/-- Local helper `visit` of `rewriteCommaExpressions`: recursively
collects comma-separated subexpressions as separate expression
statements, left to right. The comma-list case is the source's
`concat(...expr.elements.map(visit))`, written as a structural list
recursion. -/
def commaVisit : Node → List Node
  | .binary l .commaToken r => commaVisit l ++ commaVisit r
  | .commaListExpr es => commaVisitList es
  | e => [.exprStmt e]

/-- Concatenation of `commaVisit` over the elements of a comma list,
left to right. -/
def commaVisitList : List Node → List Node
  | [] => []
  | e :: es => commaVisit e ++ commaVisitList es
end

/--
`rewriteCommaExpressions(expr)`: converts a comma-operator expression
statement `x = foo, y(), z.bar();` into separate statements; null when the
expression is neither a binary comma tree nor a comma list.
-/
def rewriteCommaExpressions (expression : Node) : Option (List Node) :=
  if !isBinaryCommaExpression expression && !isCommaList expression then none
  else some (commaVisit expression)

/-- Per-module transformer state: the closure-captured mutable variables of
the per-source-file function in `commonJsToGoogmoduleTransformer`
(`didRewriteDefaultExportsAssignment`, `moduleVarCounter`,
`namespaceToModuleVarName`) plus the `modulesManifest` it appends to. The
namespace map is kept as an insertion-ordered association list: the source
only inserts a key after checking it is absent, so `Map.set` is an
append. -/
structure TransformState : Type where
  didRewriteDefaultExportsAssignment : Bool
  moduleVarCounter : Nat
  namespaceToModuleVarName : List (String × String)
  modulesManifest : ModulesManifest

/-- `Map.get` on the namespace map. -/
def mapGet (m : List (String × String)) (k : String) : Option String :=
  (m.find? (fun p => p.1 == k)).map (fun p => p.2)

/-- `Map.set` on the namespace map (only ever called with a fresh key). -/
def mapSet (m : List (String × String)) (k v : String) : List (String × String) :=
  m ++ [(k, v)]

/-- `nextModuleVar()`: returns `tsickle_module_${moduleVarCounter++}_`, a
fresh variable name for holding an imported module. -/
def nextModuleVar (st : TransformState) : String × TransformState :=
  ("tsickle_module_" ++ Nat.repr st.moduleVarCounter ++ "_",
   { st with moduleVarCounter := st.moduleVarCounter + 1 })

/-- Modelled from the spec: `createNotEmittedStatementWithComments(sf,
original)` (src/transformer_util.ts is not among the provided sources)
produces a placeholder statement that is not emitted but preserves the
original statement's comments; the original statement is carried along. -/
def createNotEmittedStatementWithComments (original : Node) : Node :=
  .notEmittedStmt (some original)

/--
`maybeCreateGoogRequire(original, call, newIdent)`: returns a
`goog.require()` statement for the given CommonJS `require` call (null if
`call` is not one), threading the per-module state. The source guards with
`if (!importedUrl) return null`, a JavaScript truthiness test: both a
non-require call (null) and an empty specifier string are rejected, so
`require('')` is not recognized and nothing is recorded for it. Every
recognized require is recorded in the manifest first; the namespace map
then decides between a fresh `goog.require` initializer and reuse of the
existing module variable, and the `goog` self-import is elided entirely.
-/
def maybeCreateGoogRequire (host : GoogModuleProcessorHost) (sf : SourceFile)
    (st : TransformState) (original call : Node) (newIdent : Option String) :
    Option Node × TransformState :=
  match extractRequire call with
  | none => (none, st)
  | some importedUrl =>
    if importedUrl == "" then (none, st)
    else
    let impText := importPathToGoogNamespace host sf importedUrl
    let st1 := { st with
      modulesManifest := st.modulesManifest.addReferencedModule sf.fileName impText }
    let existingImport := mapGet st1.namespaceToModuleVarName impText
    let (initializer, st2) : Node × TransformState :=
      match existingImport with
      | none =>
        (createGoogCall "require" impText,
         match newIdent with
         | some id =>
           { st1 with
             namespaceToModuleVarName := mapSet st1.namespaceToModuleVarName impText id }
         | none => st1)
      | some id => (.ident id, st1)
    if newIdent == some "goog" && impText == "google3.javascript.closure.goog" then
      (some (createNotEmittedStatementWithComments original), st2)
    else
      match newIdent with
      | some id =>
        (some (.varStmt (!host.es5Mode) [.varDecl (.ident id) (some initializer)]), st2)
      | none =>
        match existingImport with
        | none => (some (.exprStmt initializer), st2)
        | some _ => (some (createNotEmittedStatementWithComments original), st2)

/--
`maybeRewriteDeclareModuleId(original, call)`: rewrites
`goog.declareModuleId('foo.bar')` into a `goog.loadedModules_['foo.bar'] =
{exports, type: goog.ModuleType.GOOG, moduleId: 'foo.bar'}` record write;
null when the call does not match.
-/
def maybeRewriteDeclareModuleId (call : Node) : Option Node :=
  match call with
  | .call (.propAccess propExpr propName) args =>
    if propName != "declareModuleId" then none
    else match propExpr with
      | .ident g =>
        if g != "goog" then none
        else match args with
          | [.strLit moduleId] =>
            some (.exprStmt (.binary
              (.elemAccess (.propAccess (.ident "goog") "loadedModules_") (.strLit moduleId))
              .equalsToken
              (.objectLit [
                .propAssign (.identName "exports") (.ident "exports"),
                .propAssign (.identName "type")
                  (.propAccess (.propAccess (.ident "goog") "ModuleType") "GOOG"),
                .propAssign (.identName "moduleId") (.strLit moduleId)])))
          | _ => none
      | _ => none
  | _ => none

/--
`maybeRewriteRequireTslib(stmt)`: in JS transpilation mode
`require('tslib')` becomes `goog.require('tslib')`; note the source
returns the statement itself (not null) on a `require` call whose argument
count is not one.
-/
def maybeRewriteRequireTslib (stmt : Node) : Option Node :=
  match stmt with
  | .exprStmt (.call (.ident callee) args) =>
    if callee != "require" then none
    else match args with
      | [.strLit text] =>
        if text != "tslib" then none
        else some (.exprStmt (createGoogCall "require" text))
      | [_] => none
      | _ => some stmt
  | _ => none

/--
`maybeRewriteExportStarAsNs(stmt)`: rewrites the `exports.ns =
require('ns');` form produced by `export * as ns from` into a
`goog.require` binding to a fresh module variable followed by `exports.ns
= <variable>;`. The fresh variable is drawn from the counter before the
require call is validated, so the counter advances even when the right-hand
call turns out not to be a require.
-/
def maybeRewriteExportStarAsNs (host : GoogModuleProcessorHost) (sf : SourceFile)
    (st : TransformState) (stmt : Node) : Option (List Node) × TransformState :=
  match stmt with
  | .exprStmt (.binary (.propAccess (.ident e) exportedName) .equalsToken r) =>
    if e != "exports" then (none, st)
    else if !isCallExpression r then (none, st)
    else
      let fresh := nextModuleVar st
      let req := maybeCreateGoogRequire host sf fresh.2 stmt r (some fresh.1)
      match req.1 with
      | none => (none, req.2)
      | some reqStmt =>
        (some [reqStmt,
               .exprStmt (.binary (.propAccess (.ident "exports") exportedName)
                 .equalsToken (.ident fresh.1))],
         req.2)
  | _ => (none, st)

/-- Local helper `findPropNamed(name)` of
`rewriteObjectDefinePropertyOnExports`: matches a property assignment whose
name is the given identifier. -/
def findPropNamed (name : String) (p : Node) : Bool :=
  match p with
  | .propAssign (.identName n) _ => n == name
  | _ => false

/--
`rewriteObjectDefinePropertyOnExports(stmt)`: rewrites the live-binding
re-export `Object.defineProperty(exports, "a", {enumerable: true, get:
function() { return E; }});` into `exports.a = E;`; null on any deviation
from that shape.
-/
def rewriteObjectDefinePropertyOnExports (stmt : Node) : Option Node :=
  match stmt with
  | .exprStmt (.call (.propAccess (.ident obj) method) args) =>
    if obj != "Object" then none
    else if method != "defineProperty" then none
    else match args with
      | [objDefArg1, objDefArg2, objDefArg3] =>
        match objDefArg1, objDefArg2, objDefArg3 with
        | .ident e, .strLit exportedName, .objectLit props =>
          if e != "exports" then none
          else
            match props.find? (findPropNamed "enumerable") with
            | none => none
            | some enumerableConfig =>
              match enumerableConfig with
              | .propAssign _ enumInit =>
                match enumInit with
                | .trueLit =>
                  match props.find? (findPropNamed "get") with
                  | none => none
                  | some getConfig =>
                    match getConfig with
                    | .propAssign _ getInit =>
                      match getInit with
                      | .funcExpr body =>
                        match body with
                        | [.returnStmt (some realExportValue)] =>
                          some (.exprStmt (.binary
                            (.propAccess (.ident "exports") exportedName)
                            .equalsToken realExportValue))
                        | _ => none
                      | _ => none
                    | _ => none
                | _ => none
              | _ => none
        | _, _, _ => none
      | _ => none
  | _ => none

/-- First call argument, used for the source's unchecked
`expr.arguments[0] as ts.CallExpression` cast in the `__exportStar`
handling. On a zero-argument call the source would throw at runtime; the
placeholder returned here is not a require call, so the statement falls
through unchanged instead. -/
def argZero : List Node → Node
  | a :: _ => a
  | [] => .otherExpr 0

/--
`visitTopLevelStatement(statements, sf, node)`: the main CommonJS to
goog.module conversion for a single top-level statement. Returns the list
of statements appended for this node (at least one on every path except a
degenerate empty comma list) together with the updated per-module state.
-/
def visitTopLevelStatement (host : GoogModuleProcessorHost) (sf : SourceFile)
    (st : TransformState) (node : Node) : List Node × TransformState :=
  match (if host.isJsTranspilation then maybeRewriteRequireTslib node else none) with
  | some rewrittenTsLib => ([rewrittenTsLib], st)
  | none =>
    match node with
    | .exprStmt expression =>
      if isUseStrict node || isEsModuleProperty expression then
        ([createNotEmittedStatementWithComments node], st)
      else if !st.didRewriteDefaultExportsAssignment &&
          checkExportsVoid0Assignment expression then
        ([createNotEmittedStatementWithComments node],
         { st with didRewriteDefaultExportsAssignment := true })
      else
        match rewriteModuleExportsAssignment expression with
        | some modExports => ([modExports], st)
        | none =>
          match rewriteCommaExpressions expression with
          | some commaExpanded => (commaExpanded, st)
          | none =>
            let starNs := maybeRewriteExportStarAsNs host sf st node
            match starNs.1 with
            | some stmtList => (stmtList, starNs.2)
            | none =>
              match rewriteObjectDefinePropertyOnExports node with
              | some exportFromObjDefProp => ([exportFromObjDefProp], starNs.2)
              | none =>
                match expression with
                | .call calleeExpr callArgs =>
                  match maybeRewriteDeclareModuleId expression with
                  | some declaredModuleId => ([declaredModuleId], starNs.2)
                  | none =>
                    let isExportStar :=
                      match calleeExpr with
                      | .ident t => t == "__exportStar" || t == "__export"
                      | _ => false
                    if isExportStar then
                      let fresh := nextModuleVar starNs.2
                      let req :=
                        maybeCreateGoogRequire host sf fresh.2 node (argZero callArgs)
                          (some fresh.1)
                      match req.1 with
                      | none => ([node], req.2)
                      | some reqStmt =>
                        let newArgs :=
                          match callArgs with
                          | _ :: b :: _ => [Node.ident fresh.1, b]
                          | _ => [Node.ident fresh.1]
                        ([reqStmt, .exprStmt (.call calleeExpr newArgs)], req.2)
                    else
                      let req := maybeCreateGoogRequire host sf starNs.2 node expression none
                      match req.1 with
                      | none => ([node], req.2)
                      | some reqStmt => ([reqStmt], req.2)
                | _ => ([node], starNs.2)
    | .varStmt _ declarations =>
      match declarations with
      | [.varDecl (.ident declName) (some declInit)] =>
        if !isCallExpression declInit then ([node], st)
        else
          let req := maybeCreateGoogRequire host sf st node declInit (some declName)
          match req.1 with
          | none => ([node], req.2)
          | some reqStmt => ([reqStmt], req.2)
      | _ => ([node], st)
    | _ => ([node], st)

/-- The statement loop of the per-source-file transform: visits each top
level statement in order, accumulating the emitted statements. -/
def visitAllStatements (host : GoogModuleProcessorHost) (sf : SourceFile)
    (st : TransformState) : List Node → List Node × TransformState
  | [] => ([], st)
  | n :: rest =>
    let fst := visitTopLevelStatement host sf st n
    let snd := visitAllStatements host sf fst.2 rest
    (fst.1 ++ snd.1, snd.2)

/-- ts.isNotEmittedStatement-style kind check used by the header insertion
index search. -/
def isNotEmittedStatement : Node → Bool
  | .notEmittedStmt _ => true
  | _ => false

/-- The header statements (`headerStmts`) assembled by the transform after
visiting all statements: the `goog.module` registration, the
`var module = module || {id: ...}` polyfill, and, outside JS
transpilation, a `goog.require` of tslib unless that namespace was already
required. -/
def headerStatements (host : GoogModuleProcessorHost) (sf : SourceFile)
    (moduleName : String) (st : TransformState) : List Node :=
  let googModule := Node.exprStmt (createGoogCall "module" moduleName)
  let moduleId := host.fileNameToModuleId sf.fileName
  let modAssign := Node.varStmt false [.varDecl (.ident "module")
    (some (.binary (.ident "module") .barBarToken
      (.objectLit [.propAssign (.identName "id") (.strLit moduleId)])))]
  let base := [googModule, modAssign]
  if !host.isJsTranspilation then
    let resolvedModuleNames := st.namespaceToModuleVarName.map (fun p => p.1)
    let tslibModuleName :=
      host.pathToModuleName sf.fileName (resolveModuleName host sf.fileName "tslib")
    if resolvedModuleNames.contains tslibModuleName then base
    else base ++ [.exprStmt (createGoogCall "require" tslibModuleName)]
  else base

/-- Initial per-module state for one source file. -/
def initialState (manifest : ModulesManifest) : TransformState :=
  { didRewriteDefaultExportsAssignment := false
    moduleVarCounter := 1
    namespaceToModuleVarName := []
    modulesManifest := manifest }

/-- Splices the header statements in front of the first statement that is
not a NotEmittedStatement (leading comments), or appends them when every
statement is one. -/
def spliceHeader (stmts headerStmts : List Node) : List Node :=
  match stmts.findIdx? (fun s => !isNotEmittedStatement s) with
  | none => stmts ++ headerStmts
  | some insertionIdx =>
    stmts.take insertionIdx ++ headerStmts ++ stmts.drop insertionIdx

/-- The per-source-file transform body of
`commonJsToGoogmoduleTransformer`: the JS-script early return, the module
registration, the statement visit loop, and the header splice. Returns the
rewritten file and the updated manifest. -/
def transformSourceFile (host : GoogModuleProcessorHost)
    (modulesManifest : ModulesManifest) (sf : SourceFile) :
    SourceFile × ModulesManifest :=
  if host.isJsTranspilation && !isModule sf then (sf, modulesManifest)
  else
    let moduleName := host.pathToModuleName "" sf.fileName
    let manifest1 := modulesManifest.addModule sf.fileName moduleName
    let visited := visitAllStatements host sf (initialState manifest1) sf.statements
    let finalStmts := spliceHeader visited.1 (headerStatements host sf moduleName visited.2)
    ({ sf with statements := finalStmts }, visited.2.modulesManifest)

/-- Transformer input: in TS 2.9+ a transformer may receive a Bundle
object instead of a SourceFile; the source checks the node kind and
returns the input untouched for anything that is not a SourceFile. -/
inductive TransformerInput : Type where
  | sourceFile : SourceFile → TransformerInput
  | bundle : Nat → TransformerInput

/-- `commonJsToGoogmoduleTransformer(host, modulesManifest, ...)`: the
transformer entry point, dispatching on the input node kind. -/
def commonJsToGoogmoduleTransformer (host : GoogModuleProcessorHost)
    (modulesManifest : ModulesManifest) (input : TransformerInput) :
    TransformerInput × ModulesManifest :=
  match input with
  | .bundle b => (.bundle b, modulesManifest)
  | .sourceFile sf =>
    let res := transformSourceFile host modulesManifest sf
    (.sourceFile res.1, res.2)

/-! Specification-side definitions used to state the claims, and concrete
hosts and files used by witnesses and counterexamples. -/

mutual
/-- The comma-separated subexpressions (leaves) of a comma expression, in
source order: the specification-side description of what
`rewriteCommaExpressions` splits a statement into. -/
def commaLeaves : Node → List Node
  | .binary l .commaToken r => commaLeaves l ++ commaLeaves r
  | .commaListExpr es => commaLeavesList es
  | e => [e]

/-- Concatenation of `commaLeaves` over a comma list's elements. -/
def commaLeavesList : List Node → List Node
  | [] => []
  | e :: es => commaLeaves e ++ commaLeavesList es
end

/-- The module variable name generated for counter value `n`:
`tsickle_module_<n>_`. -/
def moduleVarName (n : Nat) : String :=
  "tsickle_module_" ++ Nat.repr n ++ "_"

/-- Recognizes a `goog.require('<ns>')` call expression. -/
def isGoogRequireCall (ns : String) : Node → Bool
  | .call (.propAccess (.ident g) m) [.strLit s] =>
    g == "goog" && m == "require" && s == ns
  | _ => false

/-- Recognizes a goog.require registration statement for namespace `ns`:
either a bare `goog.require('<ns>');` expression statement or a variable
statement initialized by `goog.require('<ns>')`. -/
def isGoogRequireRegistration (ns : String) : Node → Bool
  | .exprStmt e => isGoogRequireCall ns e
  | .varStmt _ [.varDecl _ (some declInit)] => isGoogRequireCall ns declInit
  | _ => false

/-- Number of goog.require registration statements for `ns` in a statement
list. -/
def countGoogRequires (ns : String) (stmts : List Node) : Nat :=
  (stmts.filter (isGoogRequireRegistration ns)).length

/-- Recognizes a top-level reassignment of the exports object,
`exports = ...;` (the form an empty-exports initialization would take). -/
def isExportsAssignment : Node → Bool
  | .exprStmt (.binary (.ident e) .equalsToken _) => e == "exports"
  | _ => false

/-- The statement visit loop, instrumented to keep the statements emitted
for each input statement as a separate block, in input order. -/
def visitBlocks (host : GoogModuleProcessorHost) (sf : SourceFile)
    (st : TransformState) : List Node → List (List Node) × TransformState
  | [] => ([], st)
  | n :: rest =>
    let fst := visitTopLevelStatement host sf st n
    let snd := visitBlocks host sf fst.2 rest
    (fst.1 :: snd.1, snd.2)

/-- An empty manifest. -/
def emptyManifest : ModulesManifest := ⟨[], []⟩

/-- A concrete host whose path mapper is the identity on import paths and
whose resolution oracle always fails (so specifiers pass through), in
ES6 (non-legacy) emit mode. -/
def idHost : GoogModuleProcessorHost :=
  { pathToModuleName := fun _ importPath => importPath
    fileNameToModuleId := fun f => f
    isJsTranspilation := false
    es5Mode := false
    convertIndexImportShorthand := false
    resolveToFileName := fun _ _ => none
    resolvedIsUnderNodeModules := fun _ => false }

/-- A concrete host whose path mapper visibly marks its argument and whose
resolution oracle resolves everything to a fixed file, with index-import
resolution turned on: used to observe which of the two is consulted. -/
def markingHost : GoogModuleProcessorHost :=
  { pathToModuleName := fun _ importPath => "mapped." ++ importPath
    fileNameToModuleId := fun f => f
    isJsTranspilation := false
    es5Mode := false
    convertIndexImportShorthand := true
    resolveToFileName := fun _ _ => some "resolved/file.ts"
    resolvedIsUnderNodeModules := fun _ => false }

/-- A bare `require('foo');` expression statement. -/
def bareRequireFoo : Node :=
  .exprStmt (.call (.ident "require") [.strLit "foo"])

/-- A module consisting of two identical bare `require('foo');`
statements. -/
def doubleRequireFile : SourceFile :=
  { fileName := "a.ts"
    statements := [bareRequireFoo, bareRequireFoo]
    externalModuleIndicator := true }

/-- A module with a single opaque statement and no exports reassignment. -/
def plainFile : SourceFile :=
  { fileName := "p.ts"
    statements := [.otherStmt 0]
    externalModuleIndicator := true }

/-- A host in JS transpilation mode. -/
def jsHost : GoogModuleProcessorHost :=
  { idHost with isJsTranspilation := true }

/-- A script file: no external-module indicator. -/
def scriptFile : SourceFile :=
  { fileName := "s.js"
    statements := [.otherStmt 7]
    externalModuleIndicator := false }

/-- An empty module used as a context file for import-path conversion. -/
def googSpecFile : SourceFile :=
  { fileName := "f.ts"
    statements := []
    externalModuleIndicator := true }

/-- ts.isObjectLiteralExpression. -/
def isObjectLiteralExpression : Node → Bool
  | .objectLit _ => true
  | _ => false

/-- ts.isFunctionExpression. -/
def isFunctionExpression : Node → Bool
  | .funcExpr _ => true
  | _ => false

/-- An `Object.defineProperty(...)` expression statement with the given
argument list. -/
def definePropertyStmt (args : List Node) : Node :=
  .exprStmt (.call (.propAccess (.ident "Object") "defineProperty") args)

/-- How the per-module state may change across one rewriting step: the
defaulted-exports flag is only ever set (never cleared), the module
variable counter never decreases, and the namespace map only grows, by
appending entries. -/
def StateEvolves (a b : TransformState) : Prop :=
  (b.didRewriteDefaultExportsAssignment = a.didRewriteDefaultExportsAssignment ∨
   b.didRewriteDefaultExportsAssignment = true) ∧
  a.moduleVarCounter ≤ b.moduleVarCounter ∧
  ∃ tail, b.namespaceToModuleVarName = a.namespaceToModuleVarName ++ tail

/-- Decimal value of a digit character, the inverse of `Nat.digitChar` on
digits 0 to 9. -/
def digitVal (c : Char) : Nat := c.toNat - 48

/-- Decimal decode of a most-significant-first digit character list. -/
def decodeDigits (l : List Char) : Nat :=
  l.foldl (fun a c => 10 * a + digitVal c) 0

/-! Helper lemmas. First, injectivity of the decimal rendering used by
`nextModuleVar`, via a verified decode of `Nat.toDigits`. -/

lemma digitVal_digitChar {m : Nat} (h : m < 10) :
    digitVal (Nat.digitChar m) = m := by
  interval_cases m <;> decide

lemma decodeDigits_concat (l : List Char) (c : Char) :
    decodeDigits (l ++ [c]) = 10 * decodeDigits l + digitVal c := by
  simp [decodeDigits, List.foldl_append]

lemma toDigitsCore_shift (fuel : Nat) : ∀ (n : Nat) (ds : List Char),
    Nat.toDigitsCore 10 fuel n ds = Nat.toDigitsCore 10 fuel n [] ++ ds := by
  induction fuel with
  | zero => intro n ds; simp [Nat.toDigitsCore]
  | succ f ih =>
    intro n ds
    simp only [Nat.toDigitsCore]
    by_cases h : n / 10 = 0
    · simp [h]
    · simp only [h, if_false]
      rw [ih (n / 10) (Nat.digitChar (n % 10) :: ds),
        ih (n / 10) [Nat.digitChar (n % 10)]]
      simp

lemma decode_toDigitsCore (fuel : Nat) : ∀ n, n < fuel →
    decodeDigits (Nat.toDigitsCore 10 fuel n []) = n := by
  induction fuel with
  | zero => intro n h; omega
  | succ f ih =>
    intro n h
    simp only [Nat.toDigitsCore]
    by_cases hz : n / 10 = 0
    · have h10 : n < 10 := by
        by_contra hge
        push_neg at hge
        have : 0 < n / 10 := Nat.div_pos hge (by omega)
        omega
      simp only [hz, if_true, reduceIte]
      show decodeDigits [Nat.digitChar (n % 10)] = n
      have : decodeDigits [Nat.digitChar (n % 10)] = digitVal (Nat.digitChar (n % 10)) := by
        simp [decodeDigits]
      rw [this, digitVal_digitChar (Nat.mod_lt n (by omega))]
      omega
    · have h10 : 10 ≤ n := by
        by_contra hlt
        push_neg at hlt
        exact hz (Nat.div_eq_of_lt hlt)
      simp only [hz, if_false]
      rw [toDigitsCore_shift, decodeDigits_concat]
      have hlt : n / 10 < f := by
        have : n / 10 < n := Nat.div_lt_self (by omega) (by omega)
        omega
      rw [ih (n / 10) hlt, digitVal_digitChar (Nat.mod_lt n (by omega))]
      omega

lemma decode_toDigits (n : Nat) : decodeDigits (Nat.toDigits 10 n) = n :=
  decode_toDigitsCore (n + 1) n (Nat.lt_succ_self n)

lemma natRepr_injective : Function.Injective Nat.repr := by
  intro m n h
  have hd : Nat.toDigits 10 m = Nat.toDigits 10 n := by
    have hs : (Nat.toDigits 10 m).asString = (Nat.toDigits 10 n).asString := h
    exact List.asString_inj.mp hs
  calc m = decodeDigits (Nat.toDigits 10 m) := (decode_toDigits m).symm
    _ = decodeDigits (Nat.toDigits 10 n) := by rw [hd]
    _ = n := decode_toDigits n

lemma moduleVarName_injective : Function.Injective moduleVarName := by
  intro i j h
  apply natRepr_injective
  have hd := congrArg String.data h
  simp only [moduleVarName, String.data_append, List.append_assoc] at hd
  have h1 := List.append_cancel_left hd
  have h2 := List.append_cancel_right h1
  exact String.ext h2

lemma mapGet_append_some {m : List (String × String)} {k v : String}
    (tail : List (String × String)) (h : mapGet m k = some v) :
    mapGet (m ++ tail) k = some v := by
  simp only [mapGet, List.find?_append] at *
  cases hf : m.find? (fun p => p.1 == k) with
  | none => rw [hf] at h; simp at h
  | some p => rw [hf] at h; simpa using h

lemma maybeCreateGoogRequire_state (host : GoogModuleProcessorHost) (sf : SourceFile)
    (st : TransformState) (original call : Node) (newIdent : Option String) :
    ((maybeCreateGoogRequire host sf st original call newIdent).2.didRewriteDefaultExportsAssignment
      = st.didRewriteDefaultExportsAssignment) ∧
    ((maybeCreateGoogRequire host sf st original call newIdent).2.moduleVarCounter
      = st.moduleVarCounter) ∧
    (∃ tail, (maybeCreateGoogRequire host sf st original call newIdent).2.namespaceToModuleVarName
      = st.namespaceToModuleVarName ++ tail) := by
  unfold maybeCreateGoogRequire
  cases extractRequire call with
  | none => simp
  | some url =>
    simp only
    split
    · exact ⟨rfl, rfl, [], by simp⟩
    cases hex : mapGet st.namespaceToModuleVarName (importPathToGoogNamespace host sf url) with
    | none =>
      cases newIdent with
      | none =>
        simp only [hex]
        split <;> exact ⟨rfl, rfl, [], by simp⟩
      | some id =>
        simp only [hex]
        split <;> exact ⟨rfl, rfl, [(importPathToGoogNamespace host sf url, id)], rfl⟩
    | some id =>
      cases newIdent with
      | none =>
        simp only [hex]
        split <;> exact ⟨rfl, rfl, [], by simp⟩
      | some x =>
        simp only [hex]
        split <;> exact ⟨rfl, rfl, [], by simp⟩

lemma StateEvolves.refl (a : TransformState) : StateEvolves a a :=
  ⟨Or.inl rfl, Nat.le_refl _, ⟨[], by simp⟩⟩

lemma StateEvolves.trans {a b c : TransformState}
    (h1 : StateEvolves a b) (h2 : StateEvolves b c) : StateEvolves a c := by
  obtain ⟨f1, c1, t1, m1⟩ := h1
  obtain ⟨f2, c2, t2, m2⟩ := h2
  refine ⟨?_, Nat.le_trans c1 c2, ⟨t1 ++ t2, by rw [m2, m1, List.append_assoc]⟩⟩
  rcases f2 with h | h
  · rcases f1 with g | g
    · exact Or.inl (h.trans g)
    · exact Or.inr (h.trans g)
  · exact Or.inr h

lemma stateEvolves_setFlag (a : TransformState) :
    StateEvolves a { a with didRewriteDefaultExportsAssignment := true } :=
  ⟨Or.inr rfl, Nat.le_refl _, ⟨[], by simp⟩⟩

lemma nextModuleVar_evolves (a : TransformState) : StateEvolves a (nextModuleVar a).2 :=
  ⟨Or.inl rfl, Nat.le_succ _, ⟨[], by simp [nextModuleVar]⟩⟩

lemma maybeCreateGoogRequire_evolves (host : GoogModuleProcessorHost) (sf : SourceFile)
    (st : TransformState) (original call : Node) (newIdent : Option String) :
    StateEvolves st (maybeCreateGoogRequire host sf st original call newIdent).2 := by
  obtain ⟨hf, hc, t, hm⟩ := maybeCreateGoogRequire_state host sf st original call newIdent
  exact ⟨Or.inl hf, Nat.le_of_eq hc.symm, ⟨t, hm⟩⟩

lemma maybeRewriteExportStarAsNs_evolves (host : GoogModuleProcessorHost) (sf : SourceFile)
    (st : TransformState) (stmt : Node) :
    StateEvolves st (maybeRewriteExportStarAsNs host sf st stmt).2 := by
  unfold maybeRewriteExportStarAsNs
  split
  case _ e exportedName r =>
    split
    · exact StateEvolves.refl _
    split
    · exact StateEvolves.refl _
    dsimp only
    split <;>
      exact StateEvolves.trans (nextModuleVar_evolves _)
        (maybeCreateGoogRequire_evolves _ _ _ _ _ _)
  case _ => exact StateEvolves.refl _

lemma visitTopLevelStatement_evolves (host : GoogModuleProcessorHost) (sf : SourceFile)
    (st : TransformState) (node : Node) :
    StateEvolves st (visitTopLevelStatement host sf st node).2 := by
  cases node
  case exprStmt expression =>
    unfold visitTopLevelStatement
    dsimp only
    split
    · exact StateEvolves.refl _
    split
    · exact StateEvolves.refl _
    split
    · exact stateEvolves_setFlag _
    split
    · exact StateEvolves.refl _
    split
    · exact StateEvolves.refl _
    split
    · exact maybeRewriteExportStarAsNs_evolves _ _ _ _
    split
    · exact maybeRewriteExportStarAsNs_evolves _ _ _ _
    split
    · split
      · exact maybeRewriteExportStarAsNs_evolves _ _ _ _
      split
      · split <;>
          exact StateEvolves.trans (maybeRewriteExportStarAsNs_evolves _ _ _ _)
            (StateEvolves.trans (nextModuleVar_evolves _)
              (maybeCreateGoogRequire_evolves _ _ _ _ _ _))
      · split <;>
          exact StateEvolves.trans (maybeRewriteExportStarAsNs_evolves _ _ _ _)
            (maybeCreateGoogRequire_evolves _ _ _ _ _ _)
    all_goals exact maybeRewriteExportStarAsNs_evolves _ _ _ _
  case varStmt isConst declarations =>
    unfold visitTopLevelStatement
    dsimp only
    split
    · exact StateEvolves.refl _
    split
    · split
      · exact StateEvolves.refl _
      · split <;> exact maybeCreateGoogRequire_evolves _ _ _ _ _ _
    · exact StateEvolves.refl _
  all_goals
    unfold visitTopLevelStatement
    split <;> exact StateEvolves.refl _

lemma visitAllStatements_evolves (host : GoogModuleProcessorHost) (sf : SourceFile) :
    ∀ (nodes : List Node) (st : TransformState),
      StateEvolves st (visitAllStatements host sf st nodes).2 := by
  intro nodes
  induction nodes with
  | nil => intro st; exact StateEvolves.refl _
  | cons n rest ih =>
    intro st
    exact StateEvolves.trans (visitTopLevelStatement_evolves host sf st n)
      (ih (visitTopLevelStatement host sf st n).2)

/-! The claims. -/

/-- C9: when the transformer receives a node that is not a SourceFile (a
Bundle), or when the host is in JS transpilation mode and the file is a
script (it has no external-module indicator), the input is returned
unchanged: no statement is rewritten, no header is added, and the manifest
is untouched. -/
theorem c9_identity_on_bundles_and_scripts :
    (∀ (host : GoogModuleProcessorHost) (m : ModulesManifest) (b : Nat),
      commonJsToGoogmoduleTransformer host m (.bundle b) = (.bundle b, m)) ∧
    (∀ (host : GoogModuleProcessorHost) (m : ModulesManifest) (sf : SourceFile),
      host.isJsTranspilation = true → isModule sf = false →
      commonJsToGoogmoduleTransformer host m (.sourceFile sf) = (.sourceFile sf, m)) := by
  constructor
  · intro host m b
    rfl
  · intro host m sf h1 h2
    simp [commonJsToGoogmoduleTransformer, transformSourceFile, h1, h2]

/-- Witness for C9 at a concrete bundle and a concrete script file under a
JS transpilation host. -/
theorem c9_witness :
    commonJsToGoogmoduleTransformer jsHost emptyManifest (.bundle 0)
      = (.bundle 0, emptyManifest) ∧
    commonJsToGoogmoduleTransformer jsHost emptyManifest (.sourceFile scriptFile)
      = (.sourceFile scriptFile, emptyManifest) :=
  ⟨c9_identity_on_bundles_and_scripts.1 jsHost emptyManifest 0,
   c9_identity_on_bundles_and_scripts.2 jsHost emptyManifest scriptFile rfl rfl⟩

/-- C10: for every recognized require call — one whose extracted specifier
passes the source's `if (!importedUrl) return null` truthiness guard, i.e.
a require call with a nonempty string argument — the manifest ledger entry
is appended unconditionally, before the dedup lookup and before any
elision decision, so the ledger records the reference even when the
emitted statement is elided (repeated requires, and the `goog`
self-import). An unrecognized call (not a require, or an empty specifier)
leaves the whole state, the ledger included, untouched. -/
theorem c10_ledger_appended_before_dedup_and_elision :
    (∀ (host : GoogModuleProcessorHost) (sf : SourceFile) (st : TransformState)
      (original call : Node) (newIdent : Option String) (url : String),
      extractRequire call = some url → url ≠ "" →
      (maybeCreateGoogRequire host sf st original call newIdent).2.modulesManifest.referencedModules
        = st.modulesManifest.referencedModules
          ++ [(sf.fileName, importPathToGoogNamespace host sf url)]) ∧
    (∀ (host : GoogModuleProcessorHost) (sf : SourceFile) (st : TransformState)
      (original call : Node) (newIdent : Option String),
      extractRequire call = none ∨ extractRequire call = some "" →
      maybeCreateGoogRequire host sf st original call newIdent = (none, st)) := by
  constructor
  · intro host sf st original call newIdent url h hne
    unfold maybeCreateGoogRequire
    rw [h]
    dsimp only
    rw [if_neg (by simpa using hne)]
    cases hex : mapGet st.namespaceToModuleVarName (importPathToGoogNamespace host sf url) with
    | none =>
      cases newIdent with
      | none =>
        simp only [hex]
        split <;> rfl
      | some id =>
        simp only [hex]
        split <;> rfl
    | some id =>
      cases newIdent with
      | none =>
        simp only [hex]
        split <;> rfl
      | some x =>
        simp only [hex]
        split <;> rfl
  · intro host sf st original call newIdent h
    unfold maybeCreateGoogRequire
    rcases h with h | h
    · rw [h]
    · rw [h]
      simp

/-- Witness for C10: a repeated require of an already-registered namespace
and the elided `goog` self-import both produce a not-emitted placeholder,
yet both are still recorded in the ledger; a `require('')` call leaves
state and ledger untouched. -/
theorem c10_witness :
    ((maybeCreateGoogRequire idHost googSpecFile
        { didRewriteDefaultExportsAssignment := false, moduleVarCounter := 2
          namespaceToModuleVarName := [("foo", "x")], modulesManifest := emptyManifest }
        bareRequireFoo (.call (.ident "require") [.strLit "foo"])
        none).2.modulesManifest.referencedModules = [("f.ts", "foo")]) ∧
    ((maybeCreateGoogRequire idHost googSpecFile
        { didRewriteDefaultExportsAssignment := false, moduleVarCounter := 2
          namespaceToModuleVarName := [("foo", "x")], modulesManifest := emptyManifest }
        bareRequireFoo (.call (.ident "require") [.strLit "foo"])
        none).1 = some (createNotEmittedStatementWithComments bareRequireFoo)) ∧
    ((maybeCreateGoogRequire idHost googSpecFile
        (initialState emptyManifest) bareRequireFoo
        (.call (.ident "require") [.strLit "google3.javascript.closure.goog"])
        (some "goog")).2.modulesManifest.referencedModules
      = [("f.ts", "google3.javascript.closure.goog")]) ∧
    ((maybeCreateGoogRequire idHost googSpecFile
        (initialState emptyManifest) bareRequireFoo
        (.call (.ident "require") [.strLit "google3.javascript.closure.goog"])
        (some "goog")).1 = some (createNotEmittedStatementWithComments bareRequireFoo)) ∧
    (maybeCreateGoogRequire idHost googSpecFile (initialState emptyManifest)
        (.exprStmt (.call (.ident "require") [.strLit ""]))
        (.call (.ident "require") [.strLit ""]) none
      = (none, initialState emptyManifest)) := by
  refine ⟨?_, by rfl, ?_, by rfl, ?_⟩
  · rw [c10_ledger_appended_before_dedup_and_elision.1 idHost googSpecFile _
      bareRequireFoo (.call (.ident "require") [.strLit "foo"]) none "foo" rfl (by decide)]
    rfl
  · rw [c10_ledger_appended_before_dedup_and_elision.1 idHost googSpecFile _
      bareRequireFoo (.call (.ident "require") [.strLit "google3.javascript.closure.goog"])
      (some "goog") "google3.javascript.closure.goog" rfl (by decide)]
    rfl
  · exact c10_ledger_appended_before_dedup_and_elision.2 idHost googSpecFile
      (initialState emptyManifest)
      (.exprStmt (.call (.ident "require") [.strLit ""]))
      (.call (.ident "require") [.strLit ""]) none (Or.inr rfl)

/-- C3 counterexample: for the specifier `goog:foo.Bar` the transformer's
namespace is the bare stripped namespace `foo.Bar`, which differs from
what the path-to-name mapper would return on the stripped specifier — so
the mapper is not called on it, contrary to the claim's description. -/
theorem c3_counterexample :
    importPathToGoogNamespace markingHost googSpecFile "goog:foo.Bar" = "foo.Bar" ∧
    markingHost.pathToModuleName googSpecFile.fileName "foo.Bar" = "mapped.foo.Bar" ∧
    ("foo.Bar" : String) ≠ "mapped.foo.Bar" := by
  refine ⟨rfl, rfl, by decide⟩

/-- C3 amended: a `goog:`-prefixed specifier has the marker stripped and
the remainder is used directly as the namespace; since this holds for
every host, neither the path-to-name mapper nor module path resolution is
consulted for such specifiers. -/
theorem c3_amended_goog_prefix_used_directly :
    ∀ (host : GoogModuleProcessorHost) (file : SourceFile) (tsImport ns : String),
      extractGoogNamespaceImport tsImport = some ns →
      importPathToGoogNamespace host file tsImport = ns := by
  intro host file tsImport ns h
  unfold importPathToGoogNamespace
  rw [h]

/-- Witness for C3 at the concrete marking host, whose resolver and mapper
would both visibly alter the result if consulted. -/
theorem c3_witness :
    importPathToGoogNamespace markingHost googSpecFile "goog:foo.Bar" = "foo.Bar" ∧
    importPathToGoogNamespace idHost googSpecFile "goog:foo.Bar" = "foo.Bar" :=
  ⟨c3_amended_goog_prefix_used_directly markingHost googSpecFile "goog:foo.Bar" "foo.Bar" rfl,
   c3_amended_goog_prefix_used_directly idHost googSpecFile "goog:foo.Bar" "foo.Bar" rfl⟩

/-- C8: the module variable counter starts at 1 and increases by exactly 1
per generator call; each call returns `tsickle_module_<counter>_`, names
built from distinct counter values are distinct (so identifiers are
assigned in strictly increasing first-discovery order and never repeat,
the counter never decreasing across statement processing); and an alias
table entry, once recorded for a namespace, persists unchanged for the
rest of the module, so each namespace maps to exactly one identifier. -/
theorem c8_fresh_identifiers_and_alias_uniqueness :
    (∀ m : ModulesManifest, (initialState m).moduleVarCounter = 1) ∧
    (∀ st : TransformState,
      (nextModuleVar st).1 = moduleVarName st.moduleVarCounter ∧
      (nextModuleVar st).2.moduleVarCounter = st.moduleVarCounter + 1) ∧
    (∀ i j : Nat, i ≠ j → moduleVarName i ≠ moduleVarName j) ∧
    (∀ (host : GoogModuleProcessorHost) (sf : SourceFile) (nodes : List Node)
        (st : TransformState),
      st.moduleVarCounter ≤ (visitAllStatements host sf st nodes).2.moduleVarCounter) ∧
    (∀ (host : GoogModuleProcessorHost) (sf : SourceFile) (nodes : List Node)
        (st : TransformState) (ns id : String),
      mapGet st.namespaceToModuleVarName ns = some id →
      mapGet (visitAllStatements host sf st nodes).2.namespaceToModuleVarName ns = some id) := by
  refine ⟨fun m => rfl, fun st => ⟨rfl, rfl⟩, ?_, ?_, ?_⟩
  · intro i j hij h
    exact hij (moduleVarName_injective h)
  · intro host sf nodes st
    exact (visitAllStatements_evolves host sf nodes st).2.1
  · intro host sf nodes st ns id h
    obtain ⟨-, -, tail, hm⟩ := visitAllStatements_evolves host sf nodes st
    rw [hm]
    exact mapGet_append_some tail h

/-- Witness for C8: distinct generated names at counters 1 and 2, and the
persistence of a concrete alias entry across the processing of a concrete
statement list that registers a second namespace. -/
theorem c8_witness :
    moduleVarName 1 ≠ moduleVarName 2 ∧
    mapGet (visitAllStatements idHost googSpecFile
      { didRewriteDefaultExportsAssignment := false, moduleVarCounter := 2
        namespaceToModuleVarName := [("foo", "x")], modulesManifest := emptyManifest }
      [.varStmt false [.varDecl (.ident "y") (some (.call (.ident "require")
        [.strLit "bar"]))]]).2.namespaceToModuleVarName "foo" = some "x" :=
  ⟨(c8_fresh_identifiers_and_alias_uniqueness.2.2.1 1 2 (by decide)),
   (c8_fresh_identifiers_and_alias_uniqueness.2.2.2.2 idHost googSpecFile
     [.varStmt false [.varDecl (.ident "y") (some (.call (.ident "require")
       [.strLit "bar"]))]]
     { didRewriteDefaultExportsAssignment := false, moduleVarCounter := 2
       namespaceToModuleVarName := [("foo", "x")], modulesManifest := emptyManifest }
     "foo" "x" rfl)⟩

/-- C1 counterexample: a module with two bare `require('foo');` expression
statements. The claim demands exactly one goog.require registration for
the namespace with the later occurrence elided; the transformed output
contains two registration statements for `foo`, because a bare require
records nothing in the alias table. -/
theorem c1_counterexample :
    countGoogRequires "foo"
      (transformSourceFile idHost emptyManifest doubleRequireFile).1.statements = 2 := by
  rfl

/-- C1 amended: among recognized requires (a require call whose string
specifier is nonempty — the source's truthiness guard rejects the rest),
dedup is keyed by the alias table, which only records namespaces for
require calls that bind an identifier. Once a namespace is recorded, no
later occurrence emits a registration: a bound occurrence emits a binding
statement reusing the recorded identifier and a bare occurrence is elided.
While a namespace is unrecorded, a bound occurrence emits the (unique
future) registration and records its identifier, while a bare occurrence
emits a registration without recording anything. -/
theorem c1_amended_dedup_by_alias_table :
    ∀ (host : GoogModuleProcessorHost) (sf : SourceFile) (st : TransformState)
      (original call : Node) (newIdent : Option String) (url ns : String),
      extractRequire call = some url → url ≠ "" →
      importPathToGoogNamespace host sf url = ns →
      ((∀ id, mapGet st.namespaceToModuleVarName ns = some id →
        ((maybeCreateGoogRequire host sf st original call newIdent).2.namespaceToModuleVarName
          = st.namespaceToModuleVarName ∧
        (∀ r, (maybeCreateGoogRequire host sf st original call newIdent).1 = some r →
          isGoogRequireRegistration ns r = false) ∧
        (newIdent = none →
          (maybeCreateGoogRequire host sf st original call newIdent).1
            = some (createNotEmittedStatementWithComments original)) ∧
        (∀ x, newIdent = some x →
          ¬(x = "goog" ∧ ns = "google3.javascript.closure.goog") →
          (maybeCreateGoogRequire host sf st original call newIdent).1
            = some (.varStmt (!host.es5Mode)
                [.varDecl (.ident x) (some (.ident id))])))) ∧
      (∀ x, mapGet st.namespaceToModuleVarName ns = none → newIdent = some x →
        ¬(x = "goog" ∧ ns = "google3.javascript.closure.goog") →
        ((maybeCreateGoogRequire host sf st original call newIdent).1
          = some (.varStmt (!host.es5Mode)
              [.varDecl (.ident x) (some (createGoogCall "require" ns))]) ∧
        (maybeCreateGoogRequire host sf st original call newIdent).2.namespaceToModuleVarName
          = mapSet st.namespaceToModuleVarName ns x)) ∧
      (mapGet st.namespaceToModuleVarName ns = none → newIdent = none →
        ((maybeCreateGoogRequire host sf st original call newIdent).1
          = some (.exprStmt (createGoogCall "require" ns)) ∧
        (maybeCreateGoogRequire host sf st original call newIdent).2.namespaceToModuleVarName
          = st.namespaceToModuleVarName))) := by
  intro host sf st original call newIdent url ns hreq hne0 hns
  subst hns
  unfold maybeCreateGoogRequire
  rw [hreq]
  dsimp only
  rw [if_neg (by simpa using hne0)]
  cases hex : mapGet st.namespaceToModuleVarName (importPathToGoogNamespace host sf url) with
  | some id0 =>
    refine ⟨?_, ?_, ?_⟩
    · intro id hid
      injection hid with hid
      subst hid
      dsimp only
      refine ⟨by split <;> first | rfl | (cases newIdent <;> rfl), ?_, ?_, ?_⟩
      · intro r hr
        revert hr
        split
        · intro hr
          injection hr with hr
          subst hr
          rfl
        · cases newIdent with
          | none =>
            intro hr
            injection hr with hr
            subst hr
            rfl
          | some x =>
            intro hr
            injection hr with hr
            subst hr
            rfl
      · intro hni
        subst hni
        rfl
      · intro x hni hn
        subst hni
        have hcond : (some x == some "goog" &&
            importPathToGoogNamespace host sf url == "google3.javascript.closure.goog")
              = false := by
          by_cases hx : x = "goog"
          · by_cases hT :
                importPathToGoogNamespace host sf url = "google3.javascript.closure.goog"
            · exact absurd ⟨hx, hT⟩ hn
            · simp [hT]
          · simp [hx]
        simp only [hcond]
        rfl
    · intro x hnone hni hn
      exact Option.noConfusion hnone
    · intro hnone hni
      exact Option.noConfusion hnone
  | none =>
    refine ⟨?_, ?_, ?_⟩
    · intro id hid
      exact Option.noConfusion hid
    · intro x hnone hni hn
      subst hni
      dsimp only
      have hcond : (some x == some "goog" &&
          importPathToGoogNamespace host sf url == "google3.javascript.closure.goog")
            = false := by
        by_cases hx : x = "goog"
        · by_cases hT :
              importPathToGoogNamespace host sf url = "google3.javascript.closure.goog"
          · exact absurd ⟨hx, hT⟩ hn
          · simp [hT]
        · simp [hx]
      simp only [hcond]
      exact ⟨rfl, rfl⟩
    · intro hnone hni
      subst hni
      dsimp only
      exact ⟨rfl, rfl⟩

/-- Witness for C1 at concrete inputs: a later bound require of a recorded
namespace emits a binding to the recorded identifier, a first bound
require emits the registration and records its identifier, and a bare
require of an unrecorded namespace emits a registration while leaving the
table empty. -/
theorem c1_witness :
    ((maybeCreateGoogRequire idHost googSpecFile
        { didRewriteDefaultExportsAssignment := false, moduleVarCounter := 2
          namespaceToModuleVarName := [("foo", "x")], modulesManifest := emptyManifest }
        bareRequireFoo (.call (.ident "require") [.strLit "foo"]) (some "y")).1
      = some (.varStmt true [.varDecl (.ident "y") (some (.ident "x"))])) ∧
    ((maybeCreateGoogRequire idHost googSpecFile (initialState emptyManifest)
        bareRequireFoo (.call (.ident "require") [.strLit "foo"]) (some "m")).1
      = some (.varStmt true
          [.varDecl (.ident "m") (some (createGoogCall "require" "foo"))])) ∧
    ((maybeCreateGoogRequire idHost googSpecFile (initialState emptyManifest)
        bareRequireFoo (.call (.ident "require") [.strLit "foo"]) (some "m")).2.namespaceToModuleVarName
      = [("foo", "m")]) ∧
    ((maybeCreateGoogRequire idHost googSpecFile (initialState emptyManifest)
        bareRequireFoo (.call (.ident "require") [.strLit "foo"]) none).1
      = some (.exprStmt (createGoogCall "require" "foo"))) ∧
    ((maybeCreateGoogRequire idHost googSpecFile (initialState emptyManifest)
        bareRequireFoo (.call (.ident "require") [.strLit "foo"]) none).2.namespaceToModuleVarName
      = []) := by
  have h1 := (c1_amended_dedup_by_alias_table idHost googSpecFile
    { didRewriteDefaultExportsAssignment := false, moduleVarCounter := 2
      namespaceToModuleVarName := [("foo", "x")], modulesManifest := emptyManifest }
    bareRequireFoo (.call (.ident "require") [.strLit "foo"]) (some "y") "foo" "foo"
    rfl (by decide) rfl).1 "x" rfl
  have h2 := (c1_amended_dedup_by_alias_table idHost googSpecFile (initialState emptyManifest)
    bareRequireFoo (.call (.ident "require") [.strLit "foo"]) (some "m") "foo" "foo"
    rfl (by decide) rfl).2.1 "m" rfl rfl (by decide)
  have h3 := (c1_amended_dedup_by_alias_table idHost googSpecFile (initialState emptyManifest)
    bareRequireFoo (.call (.ident "require") [.strLit "foo"]) none "foo" "foo"
    rfl (by decide) rfl).2.2 rfl rfl
  exact ⟨h1.2.2.2 "y" rfl (by decide), h2.1, h2.2, h3.1, h3.2⟩

/-- The header statements never contain an assignment to the exports
object: they are the goog.module call, the module-id variable statement,
and possibly a tslib goog.require. -/
lemma headerStatements_no_exportsAssignment (host : GoogModuleProcessorHost)
    (sf : SourceFile) (moduleName : String) (st : TransformState) :
    ∀ s ∈ headerStatements host sf moduleName st, isExportsAssignment s = false := by
  intro s hs
  unfold headerStatements at hs
  dsimp only at hs
  split at hs
  · split at hs
    · simp at hs
      rcases hs with h | h <;> subst h <;> rfl
    · simp at hs
      rcases hs with h | h | h <;> subst h <;> rfl
  · simp at hs
    rcases hs with h | h <;> subst h <;> rfl

/-- Splicing the header into a statement list does not change which
statements satisfy a predicate no header statement satisfies. -/
lemma filter_spliceHeader (stmts headerStmts : List Node) (p : Node → Bool)
    (hh : headerStmts.filter p = []) :
    (spliceHeader stmts headerStmts).filter p = stmts.filter p := by
  unfold spliceHeader
  split
  · simp [List.filter_append, hh]
  case _ idx heq =>
    rw [List.filter_append, List.filter_append, hh, List.append_nil, ← List.filter_append,
      List.take_append_drop]

/-- C2 counterexample: in non-ES5 emit mode, a module with no exports
reassignment at all is transformed without any empty-exports
initialization being synthesized: the output contains no assignment to the
exports object whatsoever, contradicting the claimed header defaulting. -/
theorem c2_counterexample :
    (plainFile.statements.filter isExportsAssignment = []) ∧
    idHost.es5Mode = false ∧
    ((transformSourceFile idHost emptyManifest plainFile).1.statements.filter
      isExportsAssignment = []) := by
  exact ⟨rfl, rfl, rfl⟩

/-- C2 amended: the transformer never synthesizes an exports
initialization in any emit mode: the statements of the output that assign
to the exports object are exactly those produced by rewriting the module
own statements, the header prologue contributing none. -/
theorem c2_amended_header_never_adds_exports_init :
    ∀ (host : GoogModuleProcessorHost) (m : ModulesManifest) (sf : SourceFile),
      (host.isJsTranspilation && !isModule sf) = false →
      (transformSourceFile host m sf).1.statements.filter isExportsAssignment
        = (visitAllStatements host sf
            (initialState (m.addModule sf.fileName (host.pathToModuleName "" sf.fileName)))
            sf.statements).1.filter isExportsAssignment := by
  intro host m sf h
  unfold transformSourceFile
  rw [h]
  dsimp only
  exact filter_spliceHeader _ _ _ (by
    rw [List.filter_eq_nil_iff]
    exact fun s hs => by
      rw [headerStatements_no_exportsAssignment host sf _ _ s hs]
      simp)

/-- Witness for C2 at the concrete plain module and identity host. -/
theorem c2_witness :
    (transformSourceFile idHost emptyManifest plainFile).1.statements.filter
      isExportsAssignment
      = (visitAllStatements idHost plainFile
          (initialState (emptyManifest.addModule plainFile.fileName
            (idHost.pathToModuleName "" plainFile.fileName)))
          plainFile.statements).1.filter isExportsAssignment :=
  c2_amended_header_never_adds_exports_init idHost emptyManifest plainFile rfl

/-- Any expression accepted by `checkExportsVoid0Assignment` is an
equals-assignment whose left side is a property access on `exports` and
whose right side is not a call expression. -/
lemma checkExportsVoid0_shape {e : Node} (h : checkExportsVoid0Assignment e = true) :
    ∃ nm r, e = .binary (.propAccess (.ident "exports") nm) .equalsToken r ∧
      isCallExpression r = false := by
  cases e
  case binary l op r =>
    cases op
    case equalsToken =>
      unfold checkExportsVoid0Assignment at h
      rw [Bool.and_eq_true] at h
      obtain ⟨hl, hr⟩ := h
      cases l
      case propAccess le nm =>
        cases le
        case ident etext =>
          have hex : etext = "exports" := by simpa using hl
          subst hex
          refine ⟨nm, r, rfl, ?_⟩
          cases r <;> first | rfl | (exfalso; simp at hr)
        all_goals simp at hl
      all_goals simp at hl
    all_goals simp [checkExportsVoid0Assignment] at h
  all_goals simp [checkExportsVoid0Assignment] at h

/-- C5: an `exports.a = exports.b = ... = void 0` statement is erased
(replaced by a not-emitted placeholder carrying the original statement for
comment preservation) only while the per-module flag is unset, and the
erasure sets the flag; once the flag is set, every further statement of
the same shape is left in the output unmodified with the state unchanged;
and the flag, once set, is never cleared by any later statement. -/
theorem c5_only_first_void0_assignment_erased :
    (∀ (host : GoogModuleProcessorHost) (sf : SourceFile) (st : TransformState) (e : Node),
      st.didRewriteDefaultExportsAssignment = false →
      checkExportsVoid0Assignment e = true →
      visitTopLevelStatement host sf st (.exprStmt e)
        = ([createNotEmittedStatementWithComments (.exprStmt e)],
           { st with didRewriteDefaultExportsAssignment := true })) ∧
    (∀ (host : GoogModuleProcessorHost) (sf : SourceFile) (st : TransformState) (e : Node),
      st.didRewriteDefaultExportsAssignment = true →
      checkExportsVoid0Assignment e = true →
      visitTopLevelStatement host sf st (.exprStmt e) = ([.exprStmt e], st)) ∧
    (∀ (host : GoogModuleProcessorHost) (sf : SourceFile) (st : TransformState) (node : Node),
      st.didRewriteDefaultExportsAssignment = true →
      (visitTopLevelStatement host sf st node).2.didRewriteDefaultExportsAssignment = true) := by
  refine ⟨?_, ?_, ?_⟩
  · intro host sf st e hflag h
    obtain ⟨nm, r, rfl, hrc⟩ := checkExportsVoid0_shape h
    unfold visitTopLevelStatement
    have htl : (if host.isJsTranspilation = true then
        maybeRewriteRequireTslib
          (.exprStmt (.binary (.propAccess (.ident "exports") nm) .equalsToken r))
      else none) = none := by split <;> rfl
    rw [htl]
    dsimp only
    rw [if_neg (by simp [isUseStrict, isEsModuleProperty])]
    rw [if_pos (by rw [hflag, h]; rfl)]
  · intro host sf st e hflag h
    obtain ⟨nm, r, rfl, hrc⟩ := checkExportsVoid0_shape h
    unfold visitTopLevelStatement
    have htl : (if host.isJsTranspilation = true then
        maybeRewriteRequireTslib
          (.exprStmt (.binary (.propAccess (.ident "exports") nm) .equalsToken r))
      else none) = none := by split <;> rfl
    rw [htl]
    dsimp only
    rw [if_neg (by simp [isUseStrict, isEsModuleProperty])]
    rw [if_neg (by rw [hflag]; simp)]
    have hmod : rewriteModuleExportsAssignment
        (.binary (.propAccess (.ident "exports") nm) .equalsToken r) = none := by
      unfold rewriteModuleExportsAssignment
      simp [isPropertyAccess]
    rw [hmod]
    dsimp only
    have hstar : maybeRewriteExportStarAsNs host sf st
        (.exprStmt (.binary (.propAccess (.ident "exports") nm) .equalsToken r))
          = (none, st) := by
      unfold maybeRewriteExportStarAsNs
      simp [hrc]
    rw [hstar]
    rfl
  · intro host sf st node hflag
    obtain ⟨hf, -, -⟩ := visitTopLevelStatement_evolves host sf st node
    rcases hf with h | h
    · rw [h, hflag]
    · exact h

/-- Witness for C5: the concrete statement `exports.a = void 0;` is erased
on first sight (flag initially false) and kept verbatim once the flag is
set. -/
theorem c5_witness :
    (visitTopLevelStatement idHost googSpecFile (initialState emptyManifest)
      (.exprStmt (.binary (.propAccess (.ident "exports") "a") .equalsToken
        (.voidExpr (.numLit "0"))))
      = ([createNotEmittedStatementWithComments
            (.exprStmt (.binary (.propAccess (.ident "exports") "a") .equalsToken
              (.voidExpr (.numLit "0"))))],
         { initialState emptyManifest with didRewriteDefaultExportsAssignment := true })) ∧
    (visitTopLevelStatement idHost googSpecFile
      { didRewriteDefaultExportsAssignment := true, moduleVarCounter := 1
        namespaceToModuleVarName := [], modulesManifest := emptyManifest }
      (.exprStmt (.binary (.propAccess (.ident "exports") "a") .equalsToken
        (.voidExpr (.numLit "0"))))
      = ([.exprStmt (.binary (.propAccess (.ident "exports") "a") .equalsToken
            (.voidExpr (.numLit "0")))],
         { didRewriteDefaultExportsAssignment := true, moduleVarCounter := 1
           namespaceToModuleVarName := [], modulesManifest := emptyManifest })) :=
  ⟨c5_only_first_void0_assignment_erased.1 idHost googSpecFile (initialState emptyManifest)
      (.binary (.propAccess (.ident "exports") "a") .equalsToken
        (.voidExpr (.numLit "0"))) rfl rfl,
   c5_only_first_void0_assignment_erased.2.1 idHost googSpecFile
      { didRewriteDefaultExportsAssignment := true, moduleVarCounter := 1
        namespaceToModuleVarName := [], modulesManifest := emptyManifest }
      (.binary (.propAccess (.ident "exports") "a") .equalsToken
        (.voidExpr (.numLit "0"))) rfl rfl⟩

mutual
/-- The statements produced by the comma-split visitor are exactly the
comma leaves wrapped as expression statements, in order. -/
theorem commaVisit_eq_leaves (e : Node) :
    commaVisit e = (commaLeaves e).map Node.exprStmt := by
  cases e
  case binary l op r =>
    cases op
    case commaToken =>
      show commaVisit l ++ commaVisit r
        = ((commaLeaves l ++ commaLeaves r).map Node.exprStmt)
      rw [List.map_append, commaVisit_eq_leaves l, commaVisit_eq_leaves r]
    all_goals rfl
  case commaListExpr es => exact commaVisitList_eq_leaves es
  all_goals rfl

/-- List version of `commaVisit_eq_leaves`. -/
theorem commaVisitList_eq_leaves (es : List Node) :
    commaVisitList es = (commaLeavesList es).map Node.exprStmt := by
  cases es
  case nil => rfl
  case cons e rest =>
    show commaVisit e ++ commaVisitList rest
      = ((commaLeaves e ++ commaLeavesList rest).map Node.exprStmt)
    rw [List.map_append, commaVisit_eq_leaves e, commaVisitList_eq_leaves rest]
end

/-- C6: a top-level expression statement whose expression is a comma
expression (a binary comma tree or a comma-list node) is split into one
expression statement per comma-separated subexpression, in left-to-right
order, with the per-module state untouched. -/
theorem c6_comma_expressions_split :
    ∀ (host : GoogModuleProcessorHost) (sf : SourceFile) (st : TransformState) (e : Node),
      (isBinaryCommaExpression e || isCommaList e) = true →
      visitTopLevelStatement host sf st (.exprStmt e)
        = ((commaLeaves e).map Node.exprStmt, st) := by
  intro host sf st e hc
  cases e
  case binary l op r =>
    cases op
    case commaToken =>
      unfold visitTopLevelStatement
      have htl : (if host.isJsTranspilation = true then
          maybeRewriteRequireTslib (.exprStmt (.binary l .commaToken r))
        else none) = none := by split <;> rfl
      rw [htl]
      dsimp only
      rw [if_neg (by simp [isUseStrict, isEsModuleProperty])]
      rw [show checkExportsVoid0Assignment (.binary l .commaToken r) = false from rfl,
        Bool.and_false]
      rw [if_neg (by simp)]
      have hmod : rewriteModuleExportsAssignment (.binary l .commaToken r) = none := rfl
      rw [hmod]
      dsimp only
      have hcm : rewriteCommaExpressions (.binary l .commaToken r)
          = some (commaVisit (.binary l .commaToken r)) := rfl
      rw [hcm]
      dsimp only
      rw [commaVisit_eq_leaves]
    all_goals simp [isBinaryCommaExpression, isCommaList] at hc
  case commaListExpr es =>
    unfold visitTopLevelStatement
    have htl : (if host.isJsTranspilation = true then
        maybeRewriteRequireTslib (.exprStmt (.commaListExpr es))
      else none) = none := by split <;> rfl
    rw [htl]
    dsimp only
    rw [if_neg (by simp [isUseStrict, isEsModuleProperty])]
    rw [show checkExportsVoid0Assignment (.commaListExpr es) = false from rfl,
      Bool.and_false]
    rw [if_neg (by simp)]
    have hmod : rewriteModuleExportsAssignment (.commaListExpr es) = none := rfl
    rw [hmod]
    dsimp only
    have hcm : rewriteCommaExpressions (.commaListExpr es)
        = some (commaVisit (.commaListExpr es)) := rfl
    rw [hcm]
    dsimp only
    rw [commaVisit_eq_leaves]
  all_goals simp [isBinaryCommaExpression, isCommaList] at hc

/-- Witness for C6: `exports.a = 1, exports.b = 2;` becomes the two
statements `exports.a = 1;` then `exports.b = 2;`, in that order. -/
theorem c6_witness :
    visitTopLevelStatement idHost googSpecFile (initialState emptyManifest)
      (.exprStmt (.binary
        (.binary (.propAccess (.ident "exports") "a") .equalsToken (.numLit "1"))
        .commaToken
        (.binary (.propAccess (.ident "exports") "b") .equalsToken (.numLit "2"))))
      = ([.exprStmt (.binary (.propAccess (.ident "exports") "a") .equalsToken (.numLit "1")),
          .exprStmt (.binary (.propAccess (.ident "exports") "b") .equalsToken (.numLit "2"))],
         initialState emptyManifest) := by
  rw [c6_comma_expressions_split idHost googSpecFile (initialState emptyManifest)
    (.binary
      (.binary (.propAccess (.ident "exports") "a") .equalsToken (.numLit "1"))
      .commaToken
      (.binary (.propAccess (.ident "exports") "b") .equalsToken (.numLit "2"))) rfl]
  rfl

/-- C4: the live-binding getter rewriter emits `exports.a = E;` for the
exact `Object.defineProperty(exports, "a", {enumerable: true, get:
function() { return E; }})` shape, and declines (returns null, so the
caller keeps the statement unmodified) on every deviation: wrong argument
count, wrong argument kinds, first argument not `exports`, `enumerable`
missing or not `true`, getter missing or not a function, or a getter body
that is not exactly one return statement with an expression. The final
conjunct shows the pipeline then passes such deviating statements through
completely unmodified (the ES-module marker, erased by its own earlier
rule, excepted). -/
theorem c4_defineProperty_getter_rewrite :
    (∀ (a : String) (E : Node),
      rewriteObjectDefinePropertyOnExports (definePropertyStmt
        [.ident "exports", .strLit a, .objectLit
          [.propAssign (.identName "enumerable") .trueLit,
           .propAssign (.identName "get") (.funcExpr [.returnStmt (some E)])]])
        = some (.exprStmt (.binary (.propAccess (.ident "exports") a) .equalsToken E))) ∧
    (∀ args : List Node, args.length ≠ 3 →
      rewriteObjectDefinePropertyOnExports (definePropertyStmt args) = none) ∧
    (∀ x y z : Node, isIdentifier x = false →
      rewriteObjectDefinePropertyOnExports (definePropertyStmt [x, y, z]) = none) ∧
    (∀ (t : String) (y z : Node), t ≠ "exports" →
      rewriteObjectDefinePropertyOnExports (definePropertyStmt [.ident t, y, z]) = none) ∧
    (∀ y z : Node, isStringLiteral y = false →
      rewriteObjectDefinePropertyOnExports (definePropertyStmt [.ident "exports", y, z])
        = none) ∧
    (∀ (a : String) (z : Node), isObjectLiteralExpression z = false →
      rewriteObjectDefinePropertyOnExports (definePropertyStmt
        [.ident "exports", .strLit a, z]) = none) ∧
    (∀ (a : String) (props : List Node),
      props.find? (findPropNamed "enumerable") = none →
      rewriteObjectDefinePropertyOnExports (definePropertyStmt
        [.ident "exports", .strLit a, .objectLit props]) = none) ∧
    (∀ (a : String) (props : List Node) (pn : PropName) (v : Node),
      props.find? (findPropNamed "enumerable") = some (.propAssign pn v) →
      v ≠ .trueLit →
      rewriteObjectDefinePropertyOnExports (definePropertyStmt
        [.ident "exports", .strLit a, .objectLit props]) = none) ∧
    (∀ (a : String) (props : List Node) (pn : PropName),
      props.find? (findPropNamed "enumerable") = some (.propAssign pn .trueLit) →
      props.find? (findPropNamed "get") = none →
      rewriteObjectDefinePropertyOnExports (definePropertyStmt
        [.ident "exports", .strLit a, .objectLit props]) = none) ∧
    (∀ (a : String) (props : List Node) (pn pn2 : PropName) (w : Node),
      props.find? (findPropNamed "enumerable") = some (.propAssign pn .trueLit) →
      props.find? (findPropNamed "get") = some (.propAssign pn2 w) →
      isFunctionExpression w = false →
      rewriteObjectDefinePropertyOnExports (definePropertyStmt
        [.ident "exports", .strLit a, .objectLit props]) = none) ∧
    (∀ (a : String) (props : List Node) (pn pn2 : PropName) (body : List Node),
      props.find? (findPropNamed "enumerable") = some (.propAssign pn .trueLit) →
      props.find? (findPropNamed "get") = some (.propAssign pn2 (.funcExpr body)) →
      (∀ E, body ≠ [.returnStmt (some E)]) →
      rewriteObjectDefinePropertyOnExports (definePropertyStmt
        [.ident "exports", .strLit a, .objectLit props]) = none) ∧
    (∀ (host : GoogModuleProcessorHost) (sf : SourceFile) (st : TransformState)
        (args : List Node),
      isEsModuleProperty (.call (.propAccess (.ident "Object") "defineProperty") args)
        = false →
      rewriteObjectDefinePropertyOnExports (definePropertyStmt args) = none →
      visitTopLevelStatement host sf st (definePropertyStmt args)
        = ([definePropertyStmt args], st)) := by
  refine ⟨?_, ?_, ?_, ?_, ?_, ?_, ?_, ?_, ?_, ?_, ?_, ?_⟩
  · intro a E
    rfl
  · intro args h
    rcases args with _ | ⟨a, _ | ⟨b, _ | ⟨c, _ | ⟨d, rest⟩⟩⟩⟩
    · rfl
    · rfl
    · rfl
    · exact absurd (by rfl) h
    · rfl
  · intro x y z h
    cases x <;> first | rfl | simp [isIdentifier] at h
  · intro t y z h
    cases y <;> try rfl
    case strLit s =>
      cases z <;> try rfl
      case objectLit props =>
        unfold rewriteObjectDefinePropertyOnExports definePropertyStmt
        simp [h]
  · intro y z h
    cases y <;> first | rfl | simp [isStringLiteral] at h
  · intro a z h
    cases z <;> first | rfl | simp [isObjectLiteralExpression] at h
  · intro a props h
    unfold rewriteObjectDefinePropertyOnExports definePropertyStmt
    simp only [h]
    rfl
  · intro a props pn v hfind hne
    unfold rewriteObjectDefinePropertyOnExports definePropertyStmt
    simp only [hfind]
    rfl
  · intro a props pn hfind1 hfind2
    unfold rewriteObjectDefinePropertyOnExports definePropertyStmt
    simp only [hfind1, hfind2]
    rfl
  · intro a props pn pn2 w hfind1 hfind2 hw
    unfold rewriteObjectDefinePropertyOnExports definePropertyStmt
    simp only [hfind1, hfind2]
    cases w <;> first | rfl | simp [isFunctionExpression] at hw
  · intro a props pn pn2 body hfind1 hfind2 hbody
    unfold rewriteObjectDefinePropertyOnExports definePropertyStmt
    simp only [hfind1, hfind2]
    rcases body with _ | ⟨s, _ | ⟨s2, rest⟩⟩
    · rfl
    · cases s
      case returnStmt oe =>
        cases oe
        case none => rfl
        case some E => exact absurd rfl (hbody E)
      all_goals rfl
    · rfl
  · intro host sf st args hesm hrw
    unfold visitTopLevelStatement definePropertyStmt
    have htl : (if host.isJsTranspilation = true then
        maybeRewriteRequireTslib
          (.exprStmt (.call (.propAccess (.ident "Object") "defineProperty") args))
      else none) = none := by split <;> rfl
    rw [htl]
    dsimp only
    rw [if_neg (by simp [isUseStrict, hesm])]
    rw [show checkExportsVoid0Assignment
      (.call (.propAccess (.ident "Object") "defineProperty") args) = false from rfl,
      Bool.and_false]
    rw [if_neg (by simp)]
    have hstar : maybeRewriteExportStarAsNs host sf st
        (.exprStmt (.call (.propAccess (.ident "Object") "defineProperty") args))
          = (none, st) := rfl
    rw [hstar]
    unfold definePropertyStmt at hrw
    rw [hrw]
    rfl

/-- Witness for C4 at concrete inputs: the exact shape is rewritten to
`exports.a = x.a;`, the same call with `enumerable` omitted is declined by
the rewriter, and the pipeline leaves the deviating statement byte
identical. -/
theorem c4_witness :
    (rewriteObjectDefinePropertyOnExports (definePropertyStmt
      [.ident "exports", .strLit "a", .objectLit
        [.propAssign (.identName "enumerable") .trueLit,
         .propAssign (.identName "get")
           (.funcExpr [.returnStmt (some (.propAccess (.ident "x") "a"))])]])
      = some (.exprStmt (.binary (.propAccess (.ident "exports") "a") .equalsToken
          (.propAccess (.ident "x") "a")))) ∧
    (rewriteObjectDefinePropertyOnExports (definePropertyStmt
      [.ident "exports", .strLit "a", .objectLit
        [.propAssign (.identName "get")
           (.funcExpr [.returnStmt (some (.propAccess (.ident "x") "a"))])]])
      = none) ∧
    (visitTopLevelStatement idHost googSpecFile (initialState emptyManifest)
      (definePropertyStmt
        [.ident "exports", .strLit "a", .objectLit
          [.propAssign (.identName "get")
             (.funcExpr [.returnStmt (some (.propAccess (.ident "x") "a"))])]])
      = ([definePropertyStmt
          [.ident "exports", .strLit "a", .objectLit
            [.propAssign (.identName "get")
               (.funcExpr [.returnStmt (some (.propAccess (.ident "x") "a"))])]]],
         initialState emptyManifest)) :=
  ⟨c4_defineProperty_getter_rewrite.1 "a" (.propAccess (.ident "x") "a"),
   c4_defineProperty_getter_rewrite.2.2.2.2.2.2.1 "a"
     [.propAssign (.identName "get")
        (.funcExpr [.returnStmt (some (.propAccess (.ident "x") "a"))])] rfl,
   c4_defineProperty_getter_rewrite.2.2.2.2.2.2.2.2.2.2.2 idHost googSpecFile
     (initialState emptyManifest)
     [.ident "exports", .strLit "a", .objectLit
       [.propAssign (.identName "get")
          (.funcExpr [.returnStmt (some (.propAccess (.ident "x") "a"))])]]
     rfl rfl⟩

/-- The statement loop is the concatenation of the per-statement blocks,
in input order, with the same final state. -/
lemma visitAll_eq_blocks (host : GoogModuleProcessorHost) (sf : SourceFile) :
    ∀ (nodes : List Node) (st : TransformState),
      visitAllStatements host sf st nodes
        = (((visitBlocks host sf st nodes).1).flatten, (visitBlocks host sf st nodes).2) := by
  intro nodes
  induction nodes with
  | nil => intro st; rfl
  | cons n rest ih =>
    intro st
    unfold visitAllStatements visitBlocks
    dsimp only
    rw [ih]
    rfl

/-- One block is emitted per input statement. -/
lemma visitBlocks_length (host : GoogModuleProcessorHost) (sf : SourceFile) :
    ∀ (nodes : List Node) (st : TransformState),
      ((visitBlocks host sf st nodes).1).length = nodes.length := by
  intro nodes
  induction nodes with
  | nil => intro st; rfl
  | cons n rest ih =>
    intro st
    unfold visitBlocks
    dsimp only
    rw [List.length_cons, ih]
    rfl

/-- The header splice only inserts the header statements at one position,
leaving the visited statements in order around it. -/
lemma spliceHeader_decompose (stmts headerStmts : List Node) :
    ∃ k, spliceHeader stmts headerStmts
      = stmts.take k ++ headerStmts ++ stmts.drop k := by
  unfold spliceHeader
  split
  · exact ⟨stmts.length, by simp⟩
  case _ idx heq => exact ⟨idx, rfl⟩

/-- Decomposition of a flattened block list around two block positions. -/
lemma flatten_decompose (L : List (List Node)) (i j : Nat) (hij : i < j)
    (hj : j < L.length) :
    L.flatten = (L.take i).flatten ++ L.get ⟨i, Nat.lt_trans hij hj⟩
      ++ ((L.drop (i + 1)).take (j - i - 1)).flatten
      ++ L.get ⟨j, hj⟩ ++ (L.drop (j + 1)).flatten := by
  have hi : i < L.length := Nat.lt_trans hij hj
  have hsplit1 : L = L.take i ++ L.get ⟨i, hi⟩ :: L.drop (i + 1) := by
    conv_lhs => rw [← List.take_append_drop i L]
    rw [List.drop_eq_getElem_cons hi]
    simp [List.get_eq_getElem]
  have hsplit2 : L.drop (i + 1)
      = (L.drop (i + 1)).take (j - i - 1) ++ L.get ⟨j, hj⟩ :: L.drop (j + 1) := by
    conv_lhs => rw [← List.take_append_drop (j - i - 1) (L.drop (i + 1))]
    congr 1
    rw [List.drop_drop]
    have hjj : i + 1 + (j - i - 1) = j := by omega
    rw [hjj, List.drop_eq_getElem_cons hj]
    simp [List.get_eq_getElem]
  conv_lhs => rw [hsplit1, hsplit2]
  simp only [List.flatten_append, List.flatten_cons, List.append_assoc]

/-- C7: relative order of the statements is preserved. The per-statement
rewriting appends one block of replacements per input statement, in input
order (the loop output is the flattening of the blocks, one block per
input statement); the final output only splices the header prologue into
that flattening at a single position; and for any two input positions
i < j, every output statement originating from statement i precedes every
output statement originating from statement j in the flattening. -/
theorem c7_order_preserved :
    (∀ (host : GoogModuleProcessorHost) (sf : SourceFile) (st : TransformState)
        (nodes : List Node),
      visitAllStatements host sf st nodes
        = (((visitBlocks host sf st nodes).1).flatten,
           (visitBlocks host sf st nodes).2)) ∧
    (∀ (host : GoogModuleProcessorHost) (sf : SourceFile) (st : TransformState)
        (nodes : List Node),
      ((visitBlocks host sf st nodes).1).length = nodes.length) ∧
    (∀ (host : GoogModuleProcessorHost) (m : ModulesManifest) (sf : SourceFile),
      (host.isJsTranspilation && !isModule sf) = false →
      ∃ k, (transformSourceFile host m sf).1.statements
        = (((visitBlocks host sf
              (initialState (m.addModule sf.fileName (host.pathToModuleName "" sf.fileName)))
              sf.statements).1).flatten).take k
          ++ headerStatements host sf (host.pathToModuleName "" sf.fileName)
              (visitBlocks host sf
                (initialState (m.addModule sf.fileName (host.pathToModuleName "" sf.fileName)))
                sf.statements).2
          ++ (((visitBlocks host sf
              (initialState (m.addModule sf.fileName (host.pathToModuleName "" sf.fileName)))
              sf.statements).1).flatten).drop k) ∧
    (∀ (host : GoogModuleProcessorHost) (sf : SourceFile) (st : TransformState)
        (nodes : List Node) (i j : Nat) (hij : i < j)
        (hj : j < ((visitBlocks host sf st nodes).1).length),
      ((visitBlocks host sf st nodes).1).flatten
        = (((visitBlocks host sf st nodes).1).take i).flatten
          ++ ((visitBlocks host sf st nodes).1).get ⟨i, Nat.lt_trans hij hj⟩
          ++ ((((visitBlocks host sf st nodes).1).drop (i + 1)).take (j - i - 1)).flatten
          ++ ((visitBlocks host sf st nodes).1).get ⟨j, hj⟩
          ++ (((visitBlocks host sf st nodes).1).drop (j + 1)).flatten) := by
  refine ⟨fun host sf st nodes => visitAll_eq_blocks host sf nodes st,
    fun host sf st nodes => visitBlocks_length host sf nodes st, ?_, ?_⟩
  · intro host m sf h
    unfold transformSourceFile
    rw [h]
    dsimp only
    rw [visitAll_eq_blocks]
    exact spliceHeader_decompose _ _
  · intro host sf st nodes i j hij hj
    exact flatten_decompose _ i j hij hj

/-- Witness for C7 at the concrete two-statement module: the header
splices into the flattened blocks at one position, and block 0's output
precedes block 1's output in the flattening. -/
theorem c7_witness :
    (∃ k, (transformSourceFile idHost emptyManifest doubleRequireFile).1.statements
      = (((visitBlocks idHost doubleRequireFile
            (initialState (emptyManifest.addModule doubleRequireFile.fileName
              (idHost.pathToModuleName "" doubleRequireFile.fileName)))
            doubleRequireFile.statements).1).flatten).take k
        ++ headerStatements idHost doubleRequireFile
            (idHost.pathToModuleName "" doubleRequireFile.fileName)
            (visitBlocks idHost doubleRequireFile
              (initialState (emptyManifest.addModule doubleRequireFile.fileName
                (idHost.pathToModuleName "" doubleRequireFile.fileName)))
              doubleRequireFile.statements).2
        ++ (((visitBlocks idHost doubleRequireFile
            (initialState (emptyManifest.addModule doubleRequireFile.fileName
              (idHost.pathToModuleName "" doubleRequireFile.fileName)))
            doubleRequireFile.statements).1).flatten).drop k) ∧
    (((visitBlocks idHost doubleRequireFile (initialState emptyManifest)
        doubleRequireFile.statements).1).flatten
      = (((visitBlocks idHost doubleRequireFile (initialState emptyManifest)
            doubleRequireFile.statements).1).take 0).flatten
        ++ ((visitBlocks idHost doubleRequireFile (initialState emptyManifest)
            doubleRequireFile.statements).1).get ⟨0, by decide⟩
        ++ ((((visitBlocks idHost doubleRequireFile (initialState emptyManifest)
            doubleRequireFile.statements).1).drop 1).take 0).flatten
        ++ ((visitBlocks idHost doubleRequireFile (initialState emptyManifest)
            doubleRequireFile.statements).1).get ⟨1, by decide⟩
        ++ (((visitBlocks idHost doubleRequireFile (initialState emptyManifest)
            doubleRequireFile.statements).1).drop 2).flatten) :=
  ⟨c7_order_preserved.2.2.1 idHost emptyManifest doubleRequireFile rfl,
   c7_order_preserved.2.2.2 idHost doubleRequireFile (initialState emptyManifest)
     doubleRequireFile.statements 0 1 (by decide) (by decide)⟩

end Tickle
